import Mathlib

/-!
Verification of the underwater optical link simulator (`final_ver.py`).

The embedding works over `ℝ`.  The Python module keeps three mutable
module-level globals (`z_max`, `a0`, `b0`), written by
`SimulationGUI.start_simulation` and read by the core functions; they are
embedded as an explicit record `Globals` threaded into every function that
reads them.  The constants `I0 = 1.0` and `h = 1.0` are never reassigned in
the source and are embedded as constants.

`scipy.integrate.solve_ivp` is applied only to the constant-coefficient
linear initial value problem `dI/dz = -c·I`, `I(0) = I0`, evaluated at the
endpoint `z_max`; it is modelled by the exact solution
`I0 * Real.exp (-c * z_max)` of that problem (the lemma
`intensity_sol_hasDerivAt` checks that this function does satisfy the
repository's own derivative `intensity_derivative`).  The floating-point
error of the adaptive RK45 solver itself is outside this embedding.

`numpy.linspace` and `numpy.argmax` are embedded by `linspace` and
`argmax` below, following numpy's documented semantics: `linspace` includes
both endpoints for `num ≥ 2`, returns `[start]` for `num = 1` and `[]` for
`num = 0`; `argmax` returns the index of the first occurrence of the
maximum, and raising on an empty input is modelled by
`ai_predict_optimal_wavelength` returning `none` when the sweep is empty.
-/

/-- Environmental data dictionary built in `start_simulation`
(`final_ver.py` lines 85–89): temperature, salinity, turbidity. -/
structure EnvironmentalData where
  temperature : ℝ
  salinity : ℝ
  turbidity : ℝ

/-- The process-wide mutable configuration of `final_ver.py`: the
module-level globals `z_max`, `a0`, `b0` assigned by
`SimulationGUI.start_simulation` (line 77 `global z_max, a0, b0`) and read
by `compute_attenuation_coefficient` and `compute_intensity_numerical`. -/
structure Globals where
  z_max : ℝ
  a0 : ℝ
  b0 : ℝ

/-- Module constant `I0 = 1.0` (line 8); never reassigned. -/
noncomputable def I0 : ℝ := 1.0

/-- Module constant `h = 1.0` (line 13); never reassigned. -/
noncomputable def h : ℝ := 1.0

/-- The local `λ_opt = 450 + min(turbidity * 10, 100)` of
`compute_attenuation_coefficient` (line 18). -/
noncomputable def lambda_opt (turbidity : ℝ) : ℝ :=
  450 + min (turbidity * 10) 100

/-- The local `a = a0 + 5e-5 * (wavelength - λ_opt) ** 2` of
`compute_attenuation_coefficient` (line 19). -/
noncomputable def absorption_term (g : Globals) (wavelength : ℝ)
    (env_data : EnvironmentalData) : ℝ :=
  g.a0 + 5e-5 * (wavelength - lambda_opt env_data.turbidity) ^ 2

/-- The local `b = b0 * (turbidity ** 2) * (wavelength / 500.0)` of
`compute_attenuation_coefficient` (line 20). -/
noncomputable def scattering_term (g : Globals) (wavelength : ℝ)
    (env_data : EnvironmentalData) : ℝ :=
  g.b0 * env_data.turbidity ^ 2 * (wavelength / 500.0)

/-- `compute_attenuation_coefficient` (lines 16–21): returns `a + b`.
The globals `a0`, `b0` are passed via `g`. -/
noncomputable def compute_attenuation_coefficient (g : Globals)
    (wavelength : ℝ) (env_data : EnvironmentalData) : ℝ :=
  absorption_term g wavelength env_data + scattering_term g wavelength env_data

/-- `intensity_derivative` (lines 23–24): the right-hand side of the decay
ODE, `-c * I`. -/
noncomputable def intensity_derivative (z I c : ℝ) : ℝ :=
  -c * I

/-- `compute_intensity_numerical` (lines 26–30).  The call
`solve_ivp(ode_fun, [0, z_max], [I0], method='RK45', t_eval=[z_max])` on the
constant-coefficient linear IVP is modelled by the exact solution
`I0 * exp (-c * z_max)` of that IVP (see `intensity_sol_hasDerivAt`).
The global `z_max` is passed via `g`. -/
noncomputable def compute_intensity_numerical (g : Globals) (wavelength : ℝ)
    (env_data : EnvironmentalData) : ℝ :=
  I0 * Real.exp (-(compute_attenuation_coefficient g wavelength env_data) * g.z_max)

/-- `numpy.linspace lo hi n`: `n` evenly spaced values over `[lo, hi]`,
endpoints included, for `n ≥ 2`; `[lo]` for `n = 1`; `[]` for `n = 0`. -/
noncomputable def linspace (lo hi : ℝ) (n : ℕ) : List ℝ :=
  if n = 0 then []
  else if n = 1 then [lo]
  else (List.range n).map fun i : ℕ => lo + (i : ℝ) * (hi - lo) / ((n : ℝ) - 1)

/-- Accumulator loop of `numpy.argmax`: scans `xs` whose head sits at
index `i` of the full array, carrying the best index `besti` and best value
`bestv` so far; the best is replaced only on a strictly greater value, so
the first maximum wins. -/
def argmaxFrom [LinearOrder α] : List α → ℕ → ℕ → α → ℕ
  | [], _, besti, _ => besti
  | x :: xs, i, besti, bestv =>
    if bestv < x then argmaxFrom xs (i + 1) i x
    else argmaxFrom xs (i + 1) besti bestv

/-- `numpy.argmax`: index of the first occurrence of the maximum. -/
def argmax [LinearOrder α] : List α → ℕ
  | [] => 0
  | x :: xs => argmaxFrom xs 1 0 x

/-- `ai_predict_optimal_wavelength` (lines 32–36): sweeps
`linspace range.1 range.2 num_points`, computes `h * intensity` at each,
and returns `(wavelengths[argmax intensities], intensities, wavelengths)`.
`numpy.argmax` raising `ValueError` on an empty sweep (`num_points = 0`) is
modelled by `none`. -/
noncomputable def ai_predict_optimal_wavelength (g : Globals)
    (env_data : EnvironmentalData) (wavelength_range : ℝ × ℝ)
    (num_points : ℕ) : Option (ℝ × List ℝ × List ℝ) :=
  let wavelengths := linspace wavelength_range.1 wavelength_range.2 num_points
  let intensities := wavelengths.map fun lam => h * compute_intensity_numerical g lam env_data
  if wavelengths.isEmpty then none
  else some (wavelengths.getD (argmax intensities) 0, intensities, wavelengths)

/-- `transmit_data` (lines 38–39): re-invokes the simulator at the chosen
wavelength and scales by `h`. -/
noncomputable def transmit_data (g : Globals) (optimal_wavelength : ℝ)
    (env_data : EnvironmentalData) : ℝ :=
  h * compute_intensity_numerical g optimal_wavelength env_data

/-- The structured outcome of one evaluation: optimal wavelength, received
intensity, the sweep's intensity samples and wavelengths, and the threshold
verdict of `start_simulation` lines 110–113. -/
structure LinkEvaluation where
  optimal_wavelength : ℝ
  received_intensity : ℝ
  intensities : List ℝ
  wavelengths : List ℝ
  meets_threshold : Prop

/-- The computational core of `SimulationGUI.start_simulation`
(lines 104–113): calls `ai_predict_optimal_wavelength` with its default
range `(400, 600)` and `num_points = 100`, recomputes the received
intensity through `transmit_data`, and compares it with the threshold. -/
noncomputable def start_simulation_core (g : Globals)
    (env_data : EnvironmentalData) (threshold : ℝ) : Option LinkEvaluation :=
  match ai_predict_optimal_wavelength g env_data (400, 600) 100 with
  | none => none
  | some (lam, ints, ws) =>
      some ⟨lam, transmit_data g lam env_data, ints, ws,
            transmit_data g lam env_data ≥ threshold⟩

/-- Sanity check of the solver model: for every constant coefficient `c`,
the function `z ↦ I0v * exp (-c * z)` solves the repository's ODE, i.e. its
derivative at every `z` is `intensity_derivative z (I0v * exp (-c * z)) c`. -/
theorem intensity_sol_hasDerivAt (c I0v z : ℝ) :
    HasDerivAt (fun t => I0v * Real.exp (-c * t))
      (intensity_derivative z (I0v * Real.exp (-c * z)) c) z := by
  have h1 : HasDerivAt (fun t : ℝ => -c * t) (-c * 1) z :=
    (hasDerivAt_id z).const_mul (-c)
  have h2 : HasDerivAt (fun t : ℝ => Real.exp (-c * t))
      (Real.exp (-c * z) * (-c * 1)) z := h1.exp
  have h3 := h2.const_mul I0v
  have heq : I0v * (Real.exp (-c * z) * (-c * 1))
      = intensity_derivative z (I0v * Real.exp (-c * z)) c := by
    simp [intensity_derivative]; ring
  exact heq ▸ h3

/-- Sanity check of the solver model: the initial condition `I(0) = I0v`. -/
theorem intensity_sol_initial (c I0v : ℝ) :
    I0v * Real.exp (-c * 0) = I0v := by
  simp

/-- C2: for every wavelength and every environment with turbidity ≥ 0, the
attenuation coefficient equals
`a0 + 5e-5 * (λ - λ_opt)^2 + b0 * turbidity^2 * (λ / 500)` with
`λ_opt = 450 + min (turbidity * 10) 100`; at `λ = λ_opt` the absorption
term equals exactly `a0`, and `a0` is its minimum over all wavelengths. -/
theorem attenuation_coefficient_formula (g : Globals) (wavelength : ℝ)
    (env : EnvironmentalData) (hturb : 0 ≤ env.turbidity) :
    compute_attenuation_coefficient g wavelength env
        = g.a0 + 5e-5 * (wavelength - (450 + min (env.turbidity * 10) 100)) ^ 2
          + g.b0 * env.turbidity ^ 2 * (wavelength / 500.0)
      ∧ absorption_term g (lambda_opt env.turbidity) env = g.a0
      ∧ ∀ lam : ℝ, g.a0 ≤ absorption_term g lam env := by
  refine ⟨rfl, ?_, ?_⟩
  · simp [absorption_term]
  · intro lam
    have hsq : (0 : ℝ) ≤ 5e-5 * (lam - lambda_opt env.turbidity) ^ 2 := by
      positivity
    simp only [absorption_term]
    linarith

/-- C2 witness: instantiation at a concrete environment with turbidity 1. -/
theorem attenuation_coefficient_formula_witness :
    (0 : ℝ) ≤ (EnvironmentalData.mk 20 35 1).turbidity
      ∧ (compute_attenuation_coefficient (Globals.mk 50 0.05 0.02) 460
            (EnvironmentalData.mk 20 35 1)
          = (0.05 : ℝ)
              + 5e-5 * (460 - (450 + min ((1 : ℝ) * 10) 100)) ^ 2
              + 0.02 * (1 : ℝ) ^ 2 * (460 / 500.0)
        ∧ absorption_term (Globals.mk 50 0.05 0.02)
            (lambda_opt (EnvironmentalData.mk 20 35 1).turbidity)
            (EnvironmentalData.mk 20 35 1) = (0.05 : ℝ)
        ∧ ∀ lam : ℝ, (0.05 : ℝ) ≤ absorption_term (Globals.mk 50 0.05 0.02) lam
            (EnvironmentalData.mk 20 35 1)) :=
  ⟨by norm_num,
   attenuation_coefficient_formula (Globals.mk 50 0.05 0.02) 460
     (EnvironmentalData.mk 20 35 1) (by norm_num)⟩

/-- C5: for every turbidity ≥ 0 the absorption-minimum wavelength
`λ_opt = 450 + min (turbidity * 10) 100` lies in `[450, 550]`; it is `450`
at turbidity `0` and `550` for every turbidity ≥ 10. -/
theorem lambda_opt_range (t : ℝ) (ht : 0 ≤ t) :
    (450 ≤ lambda_opt t ∧ lambda_opt t ≤ 550)
      ∧ (t = 0 → lambda_opt t = 450)
      ∧ (10 ≤ t → lambda_opt t = 550) := by
  refine ⟨⟨?_, ?_⟩, ?_, ?_⟩
  · have hmin : (0 : ℝ) ≤ min (t * 10) 100 := le_min (by linarith) (by norm_num)
    simp only [lambda_opt]
    linarith
  · have hmin : min (t * 10) 100 ≤ (100 : ℝ) := min_le_right _ _
    simp only [lambda_opt]
    linarith
  · intro ht0
    simp [lambda_opt, ht0]
  · intro ht10
    have hge : (100 : ℝ) ≤ t * 10 := by linarith
    simp only [lambda_opt, min_eq_right hge]
    norm_num

/-- C5 witness: instantiation at turbidity 0. -/
theorem lambda_opt_range_witness :
    (0 : ℝ) ≤ 0
      ∧ ((450 ≤ lambda_opt 0 ∧ lambda_opt 0 ≤ 550)
          ∧ ((0 : ℝ) = 0 → lambda_opt 0 = 450)
          ∧ ((10 : ℝ) ≤ 0 → lambda_opt 0 = 550)) :=
  ⟨le_refl 0, lambda_opt_range 0 (le_refl 0)⟩

/-- Invariant of the `numpy.argmax` scan loop: either the carried best wins
(everything remaining is ≤ `bestv`), or the result points at the first
element of `xs` that realises the maximum of `xs` and exceeds `bestv`. -/
theorem argmaxFrom_spec [LinearOrder α] (d : α) (xs : List α) :
    ∀ (i besti : ℕ) (bestv : α),
      (argmaxFrom xs i besti bestv = besti ∧ ∀ v ∈ xs, v ≤ bestv)
      ∨ (∃ k, k < xs.length ∧ argmaxFrom xs i besti bestv = i + k
          ∧ bestv < xs.getD k d
          ∧ (∀ j, j < k → xs.getD j d < xs.getD k d)
          ∧ ∀ v ∈ xs, v ≤ xs.getD k d) := by
  induction xs with
  | nil =>
      intro i besti bestv
      exact Or.inl ⟨rfl, by simp⟩
  | cons x xs ih =>
      intro i besti bestv
      by_cases hlt : bestv < x
      · have hstep : argmaxFrom (x :: xs) i besti bestv = argmaxFrom xs (i + 1) i x := by
          rw [argmaxFrom, if_pos hlt]
        rcases ih (i + 1) i x with ⟨heq, hall⟩ | ⟨k, hk, heq, hbv, hfirst, hall⟩
        · refine Or.inr ⟨0, by simp, by rw [hstep, heq, Nat.add_zero], ?_, ?_, ?_⟩
          · simpa using hlt
          · intro j hj; omega
          · intro v hv
            rcases List.mem_cons.mp hv with hv | hv
            · simp [hv]
            · simpa using hall v hv
        · refine Or.inr ⟨k + 1, by simpa using Nat.succ_lt_succ hk,
            by rw [hstep, heq]; omega, ?_, ?_, ?_⟩
          · rw [List.getD_cons_succ]
            exact lt_trans hlt hbv
          · intro j hj
            rcases j with _ | j
            · rw [List.getD_cons_zero, List.getD_cons_succ]
              exact hbv
            · rw [List.getD_cons_succ, List.getD_cons_succ]
              exact hfirst j (by omega)
          · intro v hv
            rw [List.getD_cons_succ]
            rcases List.mem_cons.mp hv with hv | hv
            · exact hv ▸ le_of_lt hbv
            · exact hall v hv
      · have hle : x ≤ bestv := not_lt.mp hlt
        have hstep : argmaxFrom (x :: xs) i besti bestv
            = argmaxFrom xs (i + 1) besti bestv := by
          rw [argmaxFrom, if_neg hlt]
        rcases ih (i + 1) besti bestv with ⟨heq, hall⟩ | ⟨k, hk, heq, hbv, hfirst, hall⟩
        · refine Or.inl ⟨by rw [hstep, heq], ?_⟩
          intro v hv
          rcases List.mem_cons.mp hv with hv | hv
          · exact hv ▸ hle
          · exact hall v hv
        · refine Or.inr ⟨k + 1, by simpa using Nat.succ_lt_succ hk,
            by rw [hstep, heq]; omega, ?_, ?_, ?_⟩
          · rw [List.getD_cons_succ]
            exact hbv
          · intro j hj
            rcases j with _ | j
            · rw [List.getD_cons_zero, List.getD_cons_succ]
              exact lt_of_le_of_lt hle hbv
            · rw [List.getD_cons_succ, List.getD_cons_succ]
              exact hfirst j (by omega)
          · intro v hv
            rw [List.getD_cons_succ]
            rcases List.mem_cons.mp hv with hv | hv
            · exact hv ▸ le_of_lt (lt_of_le_of_lt hle hbv)
            · exact hall v hv

/-- `numpy.argmax` on a non-empty list: the returned index is in range, the
value there is a maximum, and every strictly earlier entry is strictly
smaller (first-occurrence tie-break). -/
theorem argmax_spec [LinearOrder α] (d : α) (l : List α) (hne : l ≠ []) :
    argmax l < l.length
      ∧ (∀ v ∈ l, v ≤ l.getD (argmax l) d)
      ∧ ∀ j, j < argmax l → l.getD j d < l.getD (argmax l) d := by
  rcases l with _ | ⟨x, xs⟩
  · exact absurd rfl hne
  · have hdef : argmax (x :: xs) = argmaxFrom xs 1 0 x := rfl
    rcases argmaxFrom_spec d xs 1 0 x with ⟨heq, hall⟩ | ⟨k, hk, heq, hbv, hfirst, hall⟩
    · rw [hdef, heq]
      refine ⟨by simp, ?_, ?_⟩
      · intro v hv
        rw [List.getD_cons_zero]
        rcases List.mem_cons.mp hv with hv | hv
        · exact hv.le
        · exact hall v hv
      · intro j hj; omega
    · rw [hdef, heq]
      have hidx : (x :: xs).getD (1 + k) d = xs.getD k d := by
        rw [Nat.add_comm, List.getD_cons_succ]
      refine ⟨by simp only [List.length_cons]; omega, ?_, ?_⟩
      · intro v hv
        rw [hidx]
        rcases List.mem_cons.mp hv with hv | hv
        · exact hv ▸ le_of_lt hbv
        · exact hall v hv
      · intro j hj
        rw [hidx]
        rcases j with _ | j
        · rw [List.getD_cons_zero]
          exact hbv
        · rw [List.getD_cons_succ]
          exact hfirst j (by omega)

/-- `linspace` always produces exactly `n` samples. -/
theorem linspace_length (lo hi : ℝ) (n : ℕ) : (linspace lo hi n).length = n := by
  by_cases h0 : n = 0
  · subst h0; simp [linspace]
  by_cases h1 : n = 1
  · subst h1; simp [linspace]
  rw [linspace, if_neg h0, if_neg h1, List.length_map, List.length_range]

/-- For `n ≥ 2`, the `i`-th `linspace` sample is `lo + i * (hi - lo) / (n - 1)`. -/
theorem linspace_getD (lo hi : ℝ) (n : ℕ) (hn : 2 ≤ n) (i : ℕ) (hi' : i < n) :
    (linspace lo hi n).getD i 0 = lo + (i : ℝ) * (hi - lo) / ((n : ℝ) - 1) := by
  have h0 : n ≠ 0 := by omega
  have h1 : n ≠ 1 := by omega
  have hlen : i < ((List.range n).map
      fun j : ℕ => lo + (j : ℝ) * (hi - lo) / ((n : ℝ) - 1)).length := by
    simpa using hi'
  rw [linspace, if_neg h0, if_neg h1, List.getD_eq_getElem _ _ hlen]
  simp only [List.getElem_map, List.getElem_range]

/-- For `n = 1`, `linspace` returns only the lower endpoint. -/
theorem linspace_one (lo hi : ℝ) : linspace lo hi 1 = [lo] := by
  simp [linspace]

/-- For `n ≥ 1` the sweep is non-empty. -/
theorem linspace_ne_nil (lo hi : ℝ) (n : ℕ) (hn : 1 ≤ n) :
    linspace lo hi n ≠ [] := by
  intro hcon
  have := linspace_length lo hi n
  rw [hcon] at this
  simp at this
  omega

/-- In-range `getD` commutes with `map` (the default is irrelevant). -/
theorem getD_map_of_lt {α β : Type} (f : α → β) (l : List α) (k : ℕ) (d : α)
    (e : β) (hk : k < l.length) :
    (l.map f).getD k e = f (l.getD k d) := by
  rw [List.getD_eq_getElem _ _ (by simpa using hk), List.getD_eq_getElem _ _ hk,
    List.getElem_map]

/-- Closed form of `ai_predict_optimal_wavelength` for a non-empty sweep:
it returns the wavelength at the argmax of the scaled intensities, the
intensity list, and the wavelength list. -/
theorem ai_predict_eq (g : Globals) (env : EnvironmentalData) (lo hi : ℝ)
    (n : ℕ) (hn : 1 ≤ n) :
    ai_predict_optimal_wavelength g env (lo, hi) n =
      some ((linspace lo hi n).getD
              (argmax ((linspace lo hi n).map
                fun lam => h * compute_intensity_numerical g lam env)) 0,
            (linspace lo hi n).map
              (fun lam => h * compute_intensity_numerical g lam env),
            linspace lo hi n) := by
  have hne := linspace_ne_nil lo hi n hn
  simp only [ai_predict_optimal_wavelength]
  rw [if_neg (by simpa [List.isEmpty_iff] using hne)]

/-- C3 counterexample: with `num_points = 1` over `(400, 600)` the sweep is
the single wavelength `400`; the upper endpoint `600` is not sampled, so
the sweep is not inclusive of both endpoints as the claim states. -/
theorem ai_predict_single_point_sweep :
    ai_predict_optimal_wavelength (Globals.mk 50 0.05 0.02)
        (EnvironmentalData.mk 20 35 1) (400, 600) 1
      = some (400,
          [h * compute_intensity_numerical (Globals.mk 50 0.05 0.02) 400
            (EnvironmentalData.mk 20 35 1)],
          [(400 : ℝ)])
    ∧ (600 : ℝ) ∉ [(400 : ℝ)] := by
  constructor
  · rw [ai_predict_eq _ _ _ _ 1 (by norm_num), linspace_one]
    simp [argmax, argmaxFrom]
  · norm_num

/-- C3 (amended): for `num_points = n ≥ 1` the optimizer returns `some`
result whose wavelength list has exactly `n` entries; for `n ≥ 2` they are
evenly spaced over `[lo, hi]` inclusive of both endpoints (`n - 1` equal
intervals), while for `n = 1` the single wavelength is `lo`; the intensity
list is `h` times the simulated intensity at each wavelength, and the
selected wavelength sits at the argmax index, which realises the maximum
intensity and strictly exceeds every earlier sample (first occurrence among
ties, i.e. the lowest wavelength of an ascending sweep). -/
theorem ai_predict_sweep_spec (g : Globals) (env : EnvironmentalData)
    (lo hi : ℝ) (n : ℕ) (hn : 1 ≤ n) :
    ∃ lam ints ws,
      ai_predict_optimal_wavelength g env (lo, hi) n = some (lam, ints, ws)
      ∧ ws.length = n
      ∧ (n = 1 → ws = [lo])
      ∧ (2 ≤ n →
          (∀ i : ℕ, i < n → ws.getD i 0 = lo + (i : ℝ) * (hi - lo) / ((n : ℝ) - 1))
          ∧ ws.getD 0 0 = lo ∧ ws.getD (n - 1) 0 = hi)
      ∧ ints = ws.map (fun lam => h * compute_intensity_numerical g lam env)
      ∧ lam = ws.getD (argmax ints) 0
      ∧ argmax ints < n
      ∧ (∀ v ∈ ints, v ≤ ints.getD (argmax ints) 0)
      ∧ ∀ j, j < argmax ints → ints.getD j 0 < ints.getD (argmax ints) 0 := by
  have hlen := linspace_length lo hi n
  have hne : linspace lo hi n ≠ [] := linspace_ne_nil lo hi n hn
  have hints_ne : (linspace lo hi n).map
      (fun lam => h * compute_intensity_numerical g lam env) ≠ [] := by
    simpa using hne
  obtain ⟨hA, hmax, hfirst⟩ := argmax_spec 0 _ hints_ne
  refine ⟨_, _, _, ai_predict_eq g env lo hi n hn, hlen, ?_, ?_, rfl, rfl, ?_,
    hmax, hfirst⟩
  · intro h1
    rw [h1, linspace_one]
  · intro h2
    refine ⟨fun i hi2 => linspace_getD lo hi n h2 i hi2, ?_, ?_⟩
    · rw [linspace_getD lo hi n h2 0 (by omega)]
      norm_num
    · rw [linspace_getD lo hi n h2 (n - 1) (by omega)]
      rw [Nat.cast_sub hn]
      have hne1 : (n : ℝ) - 1 ≠ 0 := by
        have h2r : (2 : ℝ) ≤ (n : ℝ) := by exact_mod_cast h2
        linarith
      push_cast
      field_simp
  · rw [List.length_map, hlen] at hA
    exact hA

/-- C3 witness: instantiation at `n = 2` over `(400, 600)`. -/
theorem ai_predict_sweep_spec_witness :
    1 ≤ 2
    ∧ ∃ lam ints ws,
      ai_predict_optimal_wavelength (Globals.mk 50 0.05 0.02)
          (EnvironmentalData.mk 20 35 1) (400, 600) 2 = some (lam, ints, ws)
      ∧ ws.length = 2
      ∧ (2 = 1 → ws = [400])
      ∧ (2 ≤ 2 →
          (∀ i : ℕ, i < 2 →
            ws.getD i 0 = 400 + (i : ℝ) * (600 - 400) / ((2 : ℝ) - 1))
          ∧ ws.getD 0 0 = 400 ∧ ws.getD (2 - 1) 0 = 600)
      ∧ ints = ws.map (fun lam => h * compute_intensity_numerical
          (Globals.mk 50 0.05 0.02) lam (EnvironmentalData.mk 20 35 1))
      ∧ lam = ws.getD (argmax ints) 0
      ∧ argmax ints < 2
      ∧ (∀ v ∈ ints, v ≤ ints.getD (argmax ints) 0)
      ∧ ∀ j, j < argmax ints → ints.getD j 0 < ints.getD (argmax ints) 0 :=
  ⟨by omega,
   ai_predict_sweep_spec (Globals.mk 50 0.05 0.02)
     (EnvironmentalData.mk 20 35 1) 400 600 2 (by omega)⟩

/-- C4: the code performs no input validation.  At the degenerate range
`lo = hi = 500` with `num_points = 2` (the spec demands an
InvalidParameter/InvalidRange failure before any computation) the optimizer
silently returns a result; at `num_points = 0` it produces the empty sweep
and only then fails inside `numpy.argmax` (modelled by `none`), not with an
upfront InvalidParameter. -/
theorem ai_predict_no_validation :
    ai_predict_optimal_wavelength (Globals.mk 50 0.05 0.02)
        (EnvironmentalData.mk 20 35 1) (500, 500) 2 ≠ none
    ∧ ai_predict_optimal_wavelength (Globals.mk 50 0.05 0.02)
        (EnvironmentalData.mk 20 35 1) (400, 600) 0 = none := by
  constructor
  · rw [ai_predict_eq _ _ _ _ 2 (by omega)]
    simp
  · simp [ai_predict_optimal_wavelength, linspace]

/-- C6: `start_simulation` always obtains a result for its fixed sweep
`(400, 600) × 100`; the received intensity is computed by re-invoking the
simulator at the optimal wavelength scaled by `h` (`transmit_data`), and
the threshold verdict holds exactly when the received intensity is at least
the threshold. -/
theorem start_simulation_core_spec (g : Globals) (env : EnvironmentalData)
    (threshold : ℝ) :
    ∃ r : LinkEvaluation,
      start_simulation_core g env threshold = some r
      ∧ r.received_intensity
          = h * compute_intensity_numerical g r.optimal_wavelength env
      ∧ (r.meets_threshold ↔ r.received_intensity ≥ threshold) := by
  rw [start_simulation_core, ai_predict_eq g env 400 600 100 (by omega)]
  exact ⟨_, rfl, rfl, Iff.rfl⟩

/-- C8: the received intensity recomputed by `transmit_data` at the optimal
wavelength coincides with the intensity already stored at the argmax
position of the sweep's intensity list (both are the same deterministic
function of the same inputs). -/
theorem transmit_data_matches_sweep (g : Globals) (env : EnvironmentalData)
    (lo hi : ℝ) (n : ℕ) (hn : 1 ≤ n) :
    ∃ lam ints ws,
      ai_predict_optimal_wavelength g env (lo, hi) n = some (lam, ints, ws)
      ∧ transmit_data g lam env = ints.getD (argmax ints) 0 := by
  have hne : linspace lo hi n ≠ [] := linspace_ne_nil lo hi n hn
  have hints_ne : (linspace lo hi n).map
      (fun lam => h * compute_intensity_numerical g lam env) ≠ [] := by
    simpa using hne
  obtain ⟨hA, hmax, hfirst⟩ := argmax_spec 0 _ hints_ne
  rw [List.length_map] at hA
  refine ⟨_, _, _, ai_predict_eq g env lo hi n hn, ?_⟩
  rw [getD_map_of_lt _ _ _ 0 _ hA]
  rfl

/-- C8 witness: instantiation at a single-point sweep. -/
theorem transmit_data_matches_sweep_witness :
    1 ≤ 1
    ∧ ∃ lam ints ws,
      ai_predict_optimal_wavelength (Globals.mk 50 0.05 0.02)
          (EnvironmentalData.mk 20 35 1) (400, 600) 1 = some (lam, ints, ws)
      ∧ transmit_data (Globals.mk 50 0.05 0.02) lam
          (EnvironmentalData.mk 20 35 1) = ints.getD (argmax ints) 0 :=
  ⟨by omega,
   transmit_data_matches_sweep (Globals.mk 50 0.05 0.02)
     (EnvironmentalData.mk 20 35 1) 400 600 1 (by omega)⟩

/-- C9: the evaluation is deterministic with no hidden state: two runs of
the `start_simulation` core on identical globals, environment and threshold
yield identical results (optimal wavelength, received intensity, samples
and threshold verdict). -/
theorem start_simulation_core_deterministic (g g' : Globals)
    (env env' : EnvironmentalData) (t t' : ℝ)
    (hg : g = g') (henv : env = env') (ht : t = t') :
    start_simulation_core g env t = start_simulation_core g' env' t' := by
  rw [hg, henv, ht]

/-- C9 witness: instantiation at the spec's scenario parameters. -/
theorem start_simulation_core_deterministic_witness :
    Globals.mk 50 0.05 0.02 = Globals.mk 50 0.05 0.02
    ∧ EnvironmentalData.mk 20 35 1 = EnvironmentalData.mk 20 35 1
    ∧ (0.05 : ℝ) = 0.05
    ∧ start_simulation_core (Globals.mk 50 0.05 0.02)
        (EnvironmentalData.mk 20 35 1) 0.05
      = start_simulation_core (Globals.mk 50 0.05 0.02)
        (EnvironmentalData.mk 20 35 1) 0.05 :=
  ⟨rfl, rfl, rfl,
   start_simulation_core_deterministic _ _ _ _ _ _ rfl rfl rfl⟩

/-- C10: two environments that agree on turbidity (differing only in
temperature and/or salinity) produce identical attenuation coefficients,
simulated intensities, optimizer outputs (optimal wavelength, samples),
received intensities and link evaluations. -/
theorem temperature_salinity_noninterference (g : Globals) (lam : ℝ)
    (env env' : EnvironmentalData) (lo hi t : ℝ) (n : ℕ)
    (hturb : env.turbidity = env'.turbidity) :
    compute_attenuation_coefficient g lam env
        = compute_attenuation_coefficient g lam env'
    ∧ compute_intensity_numerical g lam env
        = compute_intensity_numerical g lam env'
    ∧ ai_predict_optimal_wavelength g env (lo, hi) n
        = ai_predict_optimal_wavelength g env' (lo, hi) n
    ∧ transmit_data g lam env = transmit_data g lam env'
    ∧ start_simulation_core g env t = start_simulation_core g env' t := by
  have hc : ∀ w : ℝ, compute_attenuation_coefficient g w env
      = compute_attenuation_coefficient g w env' := by
    intro w
    simp [compute_attenuation_coefficient, absorption_term, scattering_term,
      hturb]
  have hsim : ∀ w : ℝ, compute_intensity_numerical g w env
      = compute_intensity_numerical g w env' := by
    intro w
    simp [compute_intensity_numerical, hc w]
  have hfun : (fun w : ℝ => h * compute_intensity_numerical g w env)
      = fun w : ℝ => h * compute_intensity_numerical g w env' := by
    funext w
    rw [hsim w]
  have hai : ∀ p : ℝ × ℝ, ∀ m : ℕ,
      ai_predict_optimal_wavelength g env p m
        = ai_predict_optimal_wavelength g env' p m := by
    intro p m
    simp only [ai_predict_optimal_wavelength]
    rw [hfun]
  have htr : ∀ w : ℝ, transmit_data g w env = transmit_data g w env' := by
    intro w
    simp [transmit_data, hsim w]
  refine ⟨hc lam, hsim lam, hai (lo, hi) n, htr lam, ?_⟩
  rw [start_simulation_core, start_simulation_core, hai (400, 600) 100]
  rcases ai_predict_optimal_wavelength g env' (400, 600) 100 with _ | ⟨lam2, ints2, ws2⟩
  · rfl
  · simp only []
    rw [htr lam2]

/-- C10 witness: environments `(20, 35, 1)` and `(25, 30, 1)` differ only
in temperature and salinity. -/
theorem temperature_salinity_noninterference_witness :
    (EnvironmentalData.mk 20 35 1).turbidity
        = (EnvironmentalData.mk 25 30 1).turbidity
    ∧ (compute_attenuation_coefficient (Globals.mk 50 0.05 0.02) 460
          (EnvironmentalData.mk 20 35 1)
        = compute_attenuation_coefficient (Globals.mk 50 0.05 0.02) 460
          (EnvironmentalData.mk 25 30 1)
      ∧ compute_intensity_numerical (Globals.mk 50 0.05 0.02) 460
          (EnvironmentalData.mk 20 35 1)
        = compute_intensity_numerical (Globals.mk 50 0.05 0.02) 460
          (EnvironmentalData.mk 25 30 1)
      ∧ ai_predict_optimal_wavelength (Globals.mk 50 0.05 0.02)
          (EnvironmentalData.mk 20 35 1) (400, 600) 100
        = ai_predict_optimal_wavelength (Globals.mk 50 0.05 0.02)
          (EnvironmentalData.mk 25 30 1) (400, 600) 100
      ∧ transmit_data (Globals.mk 50 0.05 0.02) 460
          (EnvironmentalData.mk 20 35 1)
        = transmit_data (Globals.mk 50 0.05 0.02) 460
          (EnvironmentalData.mk 25 30 1)
      ∧ start_simulation_core (Globals.mk 50 0.05 0.02)
          (EnvironmentalData.mk 20 35 1) 0.05
        = start_simulation_core (Globals.mk 50 0.05 0.02)
          (EnvironmentalData.mk 25 30 1) 0.05) :=
  ⟨rfl,
   temperature_salinity_noninterference (Globals.mk 50 0.05 0.02) 460
     (EnvironmentalData.mk 20 35 1) (EnvironmentalData.mk 25 30 1)
     400 600 0.05 100 rfl⟩

/-- C7 counterexample: two calls of the attenuation model with identical
explicit arguments `(wavelength, env_data)` but different ambient globals
(`a0 = 0.05` versus `a0 = 1`) return different coefficients: the ambient
mutable configuration does influence the result, so the configuration does
not reach the call as an explicit parameter. -/
theorem attenuation_reads_ambient_globals :
    compute_attenuation_coefficient (Globals.mk 50 0.05 0.02) 450
        (EnvironmentalData.mk 20 35 0)
      ≠ compute_attenuation_coefficient (Globals.mk 50 1 0.02) 450
        (EnvironmentalData.mk 20 35 0) := by
  have hmin : min ((0 : ℝ) * 10) 100 = 0 := by norm_num
  norm_num [compute_attenuation_coefficient, absorption_term,
    scattering_term, lambda_opt, hmin]

/-- C7 (amended): the attenuation model and the intensity simulator read
the process-wide globals `a0`, `b0`, `z_max` in addition to their explicit
arguments; holding those globals fixed, both are pure deterministic
functions of the globals, the wavelength and the environment's turbidity. -/
theorem attenuation_simulator_explicit_state (g g' : Globals) (lam : ℝ)
    (env env' : EnvironmentalData)
    (ha : g.a0 = g'.a0) (hb : g.b0 = g'.b0) (hz : g.z_max = g'.z_max)
    (hturb : env.turbidity = env'.turbidity) :
    compute_attenuation_coefficient g lam env
        = compute_attenuation_coefficient g' lam env'
    ∧ compute_intensity_numerical g lam env
        = compute_intensity_numerical g' lam env' := by
  have hc : compute_attenuation_coefficient g lam env
      = compute_attenuation_coefficient g' lam env' := by
    simp [compute_attenuation_coefficient, absorption_term, scattering_term,
      ha, hb, hturb]
  exact ⟨hc, by simp [compute_intensity_numerical, hc, hz]⟩

/-- C7 witness: identical globals, environments differing only outside
turbidity. -/
theorem attenuation_simulator_explicit_state_witness :
    (Globals.mk 50 0.05 0.02).a0 = (Globals.mk 50 0.05 0.02).a0
    ∧ (Globals.mk 50 0.05 0.02).b0 = (Globals.mk 50 0.05 0.02).b0
    ∧ (Globals.mk 50 0.05 0.02).z_max = (Globals.mk 50 0.05 0.02).z_max
    ∧ (EnvironmentalData.mk 20 35 1).turbidity
        = (EnvironmentalData.mk 25 30 1).turbidity
    ∧ (compute_attenuation_coefficient (Globals.mk 50 0.05 0.02) 460
          (EnvironmentalData.mk 20 35 1)
        = compute_attenuation_coefficient (Globals.mk 50 0.05 0.02) 460
          (EnvironmentalData.mk 25 30 1)
      ∧ compute_intensity_numerical (Globals.mk 50 0.05 0.02) 460
          (EnvironmentalData.mk 20 35 1)
        = compute_intensity_numerical (Globals.mk 50 0.05 0.02) 460
          (EnvironmentalData.mk 25 30 1)) :=
  ⟨rfl, rfl, rfl, rfl,
   attenuation_simulator_explicit_state (Globals.mk 50 0.05 0.02)
     (Globals.mk 50 0.05 0.02) 460 (EnvironmentalData.mk 20 35 1)
     (EnvironmentalData.mk 25 30 1) rfl rfl rfl rfl⟩
